import Mathlib

/-!
Verification of the attribute-widget live-binding library (attrWidgets.py).

The embedding below translates the binding core of `BaseAttributeWidget`
and its concrete subclasses into pure Lean functions.  Maya's scene is
modelled as an immutable association list from plug strings to
(type-tag, value) pairs; `cmds.setAttr` calls are recorded in an effect
log instead of mutating the store (no claim depends on store mutation).
Python exceptions that escape a modelled method are represented by
`Option.none`; exceptions that the source catches are handled at the
catch site.  Python truthiness is modelled by `MValue.falsy`.
-/

namespace AttrWidgets

/-- A Maya attribute value as the widgets see it: string, integer,
floating point (modelled as an exact rational), boolean, or Python
`None` (the result of a bare `return`). -/
inductive MValue where
  | str (s : String)
  | int (n : Int)
  | rat (q : ℚ)
  | bool (b : Bool)
  | pyNone
deriving Repr, DecidableEq

/-- Python truthiness test (`not val`): empty string, zero, `False` and
`None` are falsy. -/
def MValue.falsy : MValue → Bool
  | .str s => s.isEmpty
  | .int n => n == 0
  | .rat q => q == 0
  | .bool b => !b
  | .pyNone => true

/-- Python `bool(val)` coercion, used by Qt when a value is handed to
`QCheckBox.setChecked`. -/
def MValue.truthy (v : MValue) : Bool := !v.falsy

/-- Interpreting a stored value as a plug-string argument (the override
entry of `_sceneAttributeData` is a `node.attr` string; any non-string
value would make `cmds.getAttr` fail, modelled by the empty string which
matches no plug). -/
def MValue.asPlug : MValue → String
  | .str s => s
  | _ => ""

/-- Interpreting a cached value as a combo-box index
(`QComboBox.setCurrentIndex(self._value)`; enum values are ints). -/
def MValue.asIndex : MValue → Int
  | .int n => n
  | .bool b => if b then 1 else 0
  | _ => 0

/-- The external Maya store: an association list from plug string
(`node.attr`) to its attribute type tag and current value. -/
structure Store where
  attrs : List (String × String × MValue)
deriving Repr, DecidableEq

/-- `cmds.getAttr(plug, type=True)`: the type tag of an existing plug. -/
def Store.getAttrType (st : Store) (plug : String) : Option String :=
  (st.attrs.find? (fun e => e.1 == plug)).map (fun e => e.2.1)

/-- `cmds.getAttr(plug)`: the value of a plug; `Option.none` models the
exception Maya raises for a missing plug. -/
def Store.getAttr (st : Store) (plug : String) : Option MValue :=
  (st.attrs.find? (fun e => e.1 == plug)).map (fun e => e.2.2)

/-- `cmds.objExists(plug)`. -/
def Store.objExists (st : Store) (plug : String) : Bool :=
  (st.attrs.find? (fun e => e.1 == plug)).isSome

/-- Observable side effects of a widget operation: number of
`cmds.getAttr` value reads, the list of attempted `cmds.setAttr` calls
(plug, value), number of `valueChanged` signal emissions, and number of
`cmds.evalDeferred` schedulings. -/
structure Effects where
  reads : Nat
  writes : List (String × MValue)
  emits : Nat
  scheduled : Nat
deriving Repr, DecidableEq

/-- No side effects. -/
def Effects.zero : Effects := ⟨0, [], 0, 0⟩

/-- Sequencing of side effects. -/
def Effects.add (a b : Effects) : Effects :=
  ⟨a.reads + b.reads, a.writes ++ b.writes, a.emits + b.emits,
   a.scheduled + b.scheduled⟩

instance : Add Effects := ⟨Effects.add⟩

/-- The effect of one `valueChanged.emit()`. -/
def oneEmit : Effects := { Effects.zero with emits := 1 }

/-- Key under which `_sceneAttributeData` stores the override plug
(`K_OVR_PLUG_OVERRIDE_DATA_KEYS = 'overridePlug'`). -/
def K_OVR_PLUG_OVERRIDE_DATA_KEYS : String := "overridePlug"

/-- `BaseAttributeWidget.GARBAGE_TEST`, the absent-key sentinel used by
`pushInData`. -/
def GARBAGE_TEST : String := "GAdbsdbrhad"

/-- `BaseAttributeWidget.PUSH_SKIP_PROPERTIES`. -/
def PUSH_SKIP_PROPERTIES : List String :=
  ["node", "attribute", "attributeType", "isConnected", "plugString"]

/-- The property names `_getAllProperties` yields for the base widget
shape: the `property` descriptors of `BaseAttributeWidget` in class-dict
(definition) order, none of which is in `ALWAYS_SKIP_PROPERTIES`. -/
def baseProperties : List String :=
  ["node", "attribute", "attributeType", "isConnected", "plugString", "value"]

/-- `K_FLOAT_WIDGET_FACTOR` (the `int(100)` slider display factor),
lifted to the rational value Python's float arithmetic uses it at. -/
def K_FLOAT_WIDGET_FACTOR : ℚ := 100

/-- `dict.get`-style lookup in a Python-dict model. -/
def dictGet : List (String × MValue) → String → Option MValue
  | [], _ => Option.none
  | e :: rest, key => if e.1 = key then some e.2 else dictGet rest key

/-- `dict.get(key, default)`. -/
def dictGetD (d : List (String × MValue)) (key : String) (dflt : MValue) :
    MValue :=
  (dictGet d key).getD dflt

/-- `dict[key] = value`: replace in place or append. -/
def dictSet : List (String × MValue) → String → MValue →
    List (String × MValue)
  | [], key, v => [(key, v)]
  | e :: rest, key, v =>
    if e.1 = key then (key, v) :: rest else e :: dictSet rest key v

/-- The state a `BaseAttributeWidget` instance carries.  `attrName`
models `self._attribute` (`attribute` is a Lean keyword);
`validAttrTypes` models the subclass's `VALID_ATTR_TYPES` class
attribute; `nodeCallbacks` holds the registered `MCallbackIdWrapper`
tokens as opaque ids. -/
structure WidgetState where
  node : String
  attrName : String
  plugString : String
  attributeType : String
  validAttrTypes : List String
  isConnected : Bool
  value : MValue
  attributeDefaults : List (String × MValue)
  deferredUpdateRequest : List Bool
  nodeCallbacks : List Nat
  sceneAttributeData : List (String × MValue)
deriving Repr, DecidableEq

/-- The effective plug resolution shared by `_onGetAttr`, `_onSetAttr`
and `connectToNode`: if `self._sceneAttributeData` is truthy (nonempty)
and its `overridePlug` entry is absent or falsy, the operation is a
silent no-op (`Option.none` here); otherwise reads/writes target the
override plug, or the widget's own plug when no scene data is held. -/
def resolvePlug (w : WidgetState) : Option String :=
  if w.sceneAttributeData = [] then some w.plugString
  else
    match dictGet w.sceneAttributeData K_OVR_PLUG_OVERRIDE_DATA_KEYS with
    | Option.none => Option.none
    | some v => if v.falsy then Option.none else some v.asPlug

/-- `BaseAttributeWidget._onGetAttr`.  Returns `Option.none` when the
uncaught `cmds.getAttr` exception escapes (missing effective plug);
otherwise returns the new state, the method's Python return value
(`MValue.pyNone` on every early `return`), and the effects.  Faithful
details: the early guard when not connected; the override obstruction
no-op; and the `if not _val: return` policy that drops falsy reads
without updating.  On an adopted value the base `_updateWidgetValues`
emits `valueChanged` once. -/
def onGetAttr (st : Store) (w : WidgetState) :
    Option (WidgetState × MValue × Effects) :=
  if w.isConnected = false then some (w, MValue.pyNone, Effects.zero)
  else
    match resolvePlug w with
    | Option.none => some (w, MValue.pyNone, Effects.zero)
    | some plug =>
      match st.getAttr plug with
      | Option.none => Option.none
      | some v =>
        if v.falsy then
          some (w, MValue.pyNone, { Effects.zero with reads := 1 })
        else
          some ({ w with value := v }, v,
                { Effects.zero with reads := 1, emits := 1 })

/-- `BaseAttributeWidget._onSetAttr`.  No-op unless connected or
`force`; no-op on an override obstruction; then performs the (unused)
`cmds.getAttr(self._plugString)` read of line 305 — whose exception is
uncaught, modelled by `Option.none` — and attempts one `cmds.setAttr`
on the effective plug (a rejected write is caught and absorbed, so it
is recorded as an attempt without changing state). -/
def onSetAttr (st : Store) (force : Bool) (w : WidgetState) :
    Option (WidgetState × Effects) :=
  if force = false ∧ w.isConnected = false then some (w, Effects.zero)
  else
    match resolvePlug w with
    | Option.none => some (w, Effects.zero)
    | some plug =>
      match st.getAttr w.plugString with
      | Option.none => Option.none
      | some _ =>
        some (w,
          { Effects.zero with reads := 1, writes := [(plug, w.value)] })

/-- The public `value` property setter of `BaseAttributeWidget`: store
the value, `_onSetAttr()`, then the base `_updateWidgetValues()` which
emits `valueChanged` once. -/
def valueSetter (st : Store) (v : MValue) (w : WidgetState) :
    Option (WidgetState × Effects) :=
  let w1 := { w with value := v }
  match onSetAttr st false w1 with
  | Option.none => Option.none
  | some (w2, e) => some (w2, e + oneEmit)

/-- `BaseAttributeWidget._onDirtyPlug`: append a pending marker, and
schedule `_processDeferredUpdateRequest` via `cmds.evalDeferred` only
when the queue length just became 1. -/
def onDirtyPlug (w : WidgetState) : WidgetState × Effects :=
  let q := w.deferredUpdateRequest ++ [true]
  ({ w with deferredUpdateRequest := q },
   { Effects.zero with scheduled := if q.length = 1 then 1 else 0 })

/-- `BaseAttributeWidget._processDeferredUpdateRequest`: one
`_onGetAttr` if any markers are queued, then the queue is reset to the
empty list in every case. -/
def processDeferredUpdateRequest (st : Store) (w : WidgetState) :
    Option (WidgetState × Effects) :=
  if w.deferredUpdateRequest = [] then
    some ({ w with deferredUpdateRequest := [] }, Effects.zero)
  else
    match onGetAttr st w with
    | Option.none => Option.none
    | some (w1, _, e) => some ({ w1 with deferredUpdateRequest := [] }, e)

/-- Delivering `n` consecutive dirty notifications. -/
def iterDirty : Nat → WidgetState → WidgetState × Effects
  | 0, w => (w, Effects.zero)
  | Nat.succ n, w =>
    let p := onDirtyPlug w
    let r := iterDirty n p.1
    (r.1, p.2 + r.2)

/-- `BaseAttributeWidget.connectToNode`.  Faithful to the source order:
`_nodeCallbacks` and `_deferredUpdateRequest` are reset to fresh empty
lists BEFORE the `if self._isConnected: return` guard; then the
override obstruction, `cmds.objExists` and `VALID_ATTR_TYPES` early
returns; with `pull`, `_onGetAttr()` inside try/except (a raised read
aborts the connection, leaving the widget unconnected) and the returned
value — `None` whenever `_onGetAttr` early-returns — is adopted through
the `value` setter; without `pull`, `_onSetAttr(force=True)` runs
outside any try (its exception escapes, `Option.none`).  Finally one
callback wrapper is appended and the connected flag is set. -/
def connectToNode (st : Store) (pull : Bool) (w : WidgetState) :
    Option (WidgetState × Effects) :=
  let w0 := { w with nodeCallbacks := [], deferredUpdateRequest := [] }
  if w0.isConnected then some (w0, Effects.zero)
  else
    match resolvePlug w0 with
    | Option.none => some (w0, Effects.zero)
    | some plug =>
      if st.objExists plug = false then some (w0, Effects.zero)
      else if w0.validAttrTypes.contains w0.attributeType = false then
        some (w0, Effects.zero)
      else if pull then
        match onGetAttr st w0 with
        | Option.none => some (w0, Effects.zero)
        | some (w1, ret, e1) =>
          match valueSetter st ret w1 with
          | Option.none => Option.none
          | some (w2, e2) =>
            some ({ w2 with
                    nodeCallbacks := w2.nodeCallbacks ++ [0],
                    isConnected := true }, e1 + e2)
      else
        match onSetAttr st true w0 with
        | Option.none => Option.none
        | some (w1, e1) =>
          some ({ w1 with
                  nodeCallbacks := w1.nodeCallbacks ++ [0],
                  isConnected := true }, e1)

/-- `BaseAttributeWidget.disConnectFromNode`.  No-op if not connected;
otherwise one final `_onGetAttr()` (uncaught on a missing plug), clear
the connected flag.  The source's `for _callback in
self._nodeCallbacks: del _callback` only unbinds the loop variable, so
`nodeCallbacks` is left unchanged here, exactly as in the code. -/
def disConnectFromNode (st : Store) (w : WidgetState) :
    Option (WidgetState × Effects) :=
  if w.isConnected = false then some (w, Effects.zero)
  else
    match onGetAttr st w with
    | Option.none => Option.none
    | some (w1, _, e) => some ({ w1 with isConnected := false }, e)

/-- `getattr(self, prop)` for the base widget's enumerable properties. -/
def getProp (w : WidgetState) : String → MValue
  | "node" => MValue.str w.node
  | "attribute" => MValue.str w.attrName
  | "attributeType" => MValue.str w.attributeType
  | "isConnected" => MValue.bool w.isConnected
  | "plugString" => MValue.str w.plugString
  | "value" => w.value
  | _ => MValue.pyNone

/-- The property-collection loop of `stealMyData`. -/
def stealProps (w : WidgetState) :
    List String → List (String × MValue) → List (String × MValue)
  | [], d => d
  | p :: rest, d => stealProps w rest (dictSet d p (getProp w p))

/-- `BaseAttributeWidget.stealMyData`: start from a copy of
`_sceneAttributeData` when it is truthy, then record every enumerated
property's current value. -/
def stealMyData (w : WidgetState) : List (String × MValue) :=
  stealProps w baseProperties
    (if w.sceneAttributeData = [] then [] else w.sceneAttributeData)

/-- `setattr(self, prop, v)` for the properties `pushInData` can reach:
of the base shape's enumerable properties, all but `value` are on
`PUSH_SKIP_PROPERTIES`, so `value` (whose setter is the public value
setter) is the only one ever assigned. -/
def setPropValue (st : Store) (prop : String) (v : MValue)
    (w : WidgetState) : Option (WidgetState × Effects) :=
  if prop = "value" then valueSetter st v w else some (w, Effects.zero)

/-- The property-application loop of `pushInData`: skip the push
exclusion list; apply a property only when `data.get(prop,
GARBAGE_TEST) != GARBAGE_TEST` (presence-tested against the sentinel,
not against falsiness). -/
def pushProps (st : Store) (data : List (String × MValue)) :
    List String → WidgetState → Option (WidgetState × Effects)
  | [], w => some (w, Effects.zero)
  | p :: rest, w =>
    if p ∈ PUSH_SKIP_PROPERTIES then pushProps st data rest w
    else if dictGetD data p (MValue.str GARBAGE_TEST)
        = MValue.str GARBAGE_TEST then
      pushProps st data rest w
    else
      match setPropValue st p (dictGetD data p MValue.pyNone) w with
      | Option.none => Option.none
      | some (w1, e1) =>
        match pushProps st data rest w1 with
        | Option.none => Option.none
        | some (w2, e2) => some (w2, e1 + e2)

/-- `BaseAttributeWidget.resetToDefaultValue`: apply
`_attributeDefaults['value']` through the value setter only when that
key is present (tested with a string sentinel, same pattern as
`pushInData`). -/
def resetToDefaultValue (st : Store) (w : WidgetState) :
    Option (WidgetState × Effects) :=
  match dictGet w.attributeDefaults "value" with
  | Option.none => some (w, Effects.zero)
  | some v =>
    if v = MValue.str "dhgwsdbsadbsdb" then some (w, Effects.zero)
    else valueSetter st v w

/-- `BaseAttributeWidget.pushInData`: an empty/absent bundle resets to
the captured default; otherwise the bundle is adopted as the new
`_sceneAttributeData` and every non-excluded enumerated property that
the bundle supplies is applied through its setter. -/
def pushInData (st : Store) (data : List (String × MValue))
    (w : WidgetState) : Option (WidgetState × Effects) :=
  if data = [] then resetToDefaultValue st w
  else pushProps st data baseProperties { w with sceneAttributeData := data }

/-- The errors `BaseAttributeWidget.__init__` can raise:
`missingArgument` and `typeMismatch` and `unsupportedType` are the
three explicit `TypeError`s; `attributeError` is the exception
`cmds.getAttr(plug, type=True)` raises on a missing plug; `keyError`
the `self._attributeDefaults['value']` lookup failure. -/
inductive InitError where
  | missingArgument
  | attributeError
  | typeMismatch
  | unsupportedType
  | keyError
deriving Repr, DecidableEq

/-- Python falsiness of an optional string argument (`not node` is true
for `None` and for the empty string). -/
def optFalsy : Option String → Bool
  | Option.none => true
  | some s => s.isEmpty

/-- `BaseAttributeWidget.__init__` up to the construction of the
widget state.  Checks in source order: the missing-argument guard, the
`cmds.getAttr(type=True)` kind comparison, the `VALID_ATTR_TYPES`
membership; then the initial value (`kwargs.get('value',
self._attributeDefaults['value'])`).  The kind-specific
`_getAttributeInformation` probe is abstracted as the `attrInfo`
parameter (each subclass computes its own defaults dict). -/
def baseInit (st : Store) (validTypes : List String)
    (node attrName attributeType : Option String)
    (valueKw : Option MValue) (attrInfo : List (String × MValue)) :
    Except InitError WidgetState :=
  if optFalsy node || optFalsy attrName || optFalsy attributeType then
    Except.error InitError.missingArgument
  else
    let n := node.getD ""
    let a := attrName.getD ""
    let t := attributeType.getD ""
    let plug := n ++ "." ++ a
    match st.getAttrType plug with
    | Option.none => Except.error InitError.attributeError
    | some k =>
      if k ≠ t then Except.error InitError.typeMismatch
      else if validTypes.contains t then
        match (match valueKw with
               | some v => some v
               | Option.none => dictGet attrInfo "value") with
        | Option.none => Except.error InitError.keyError
        | some v0 =>
          Except.ok
            { node := n, attrName := a, plugString := plug,
              attributeType := t, validAttrTypes := validTypes,
              isConnected := false, value := v0,
              attributeDefaults := attrInfo,
              deferredUpdateRequest := [], nodeCallbacks := [],
              sceneAttributeData := [] }
      else Except.error InitError.unsupportedType

/-- State of an `EnumAttributeWidget`: the base state plus the combo
box's displayed index and the option labels. -/
structure EnumWidget where
  w : WidgetState
  comboIndex : Int
  enumValues : List String
deriving Repr, DecidableEq

/-- `EnumAttributeWidget._silentUpdateSelf`: set the combo box's index
to the cached value with the change listener detached. -/
def enumSilentUpdateSelf (ew : EnumWidget) : EnumWidget :=
  { ew with comboIndex := ew.w.value.asIndex }

/-- `EnumAttributeWidget._updateWidgetValues`.  Line 647 of the source
reads `self._silentUpdateSelf` — an expression statement that evaluates
the bound method and discards it without calling it — so the combo box
is never touched; only the inherited emit runs. -/
def enumUpdateWidgetValues (ew : EnumWidget) : EnumWidget × Effects :=
  (ew, oneEmit)

/-- State of a `BoolAttributeWidget`: base state plus the check box's
displayed checked state. -/
structure BoolWidget where
  w : WidgetState
  checkBox : Bool
deriving Repr, DecidableEq

/-- `BoolAttributeWidget._widgetUpdated`: read the checked state back
into the cached value, `_onSetAttr()`, then the inherited emit. -/
def boolWidgetUpdated (st : Store) (bw : BoolWidget) :
    Option (BoolWidget × Effects) :=
  let w1 := { bw.w with value := MValue.bool bw.checkBox }
  match onSetAttr st false w1 with
  | Option.none => Option.none
  | some (w2, e) => some ({ bw with w := w2 }, e + oneEmit)

/-- `BoolAttributeWidget._updateWidgetValues`: `setChecked(self._value)`
is performed WITHOUT detaching the `stateChanged` listener, so whenever
the checked state actually flips, Qt synchronously fires
`_widgetUpdated` before control returns; then the inherited emit runs. -/
def boolUpdateWidgetValues (st : Store) (bw : BoolWidget) :
    Option (BoolWidget × Effects) :=
  let newChecked := bw.w.value.truthy
  if bw.checkBox = newChecked then some (bw, oneEmit)
  else
    match boolWidgetUpdated st { bw with checkBox := newChecked } with
    | Option.none => Option.none
    | some (bw2, e) => some (bw2, e + oneEmit)

/-- The public `value` setter as executed on a `BoolAttributeWidget`
(same source as `valueSetter`, but dispatching to the overridden
`_updateWidgetValues`). -/
def boolValueSetter (st : Store) (v : MValue) (bw : BoolWidget) :
    Option (BoolWidget × Effects) :=
  let bw1 : BoolWidget := { bw with w := { bw.w with value := v } }
  match onSetAttr st false bw1.w with
  | Option.none => Option.none
  | some (w2, e1) =>
    match boolUpdateWidgetValues st { bw1 with w := w2 } with
    | Option.none => Option.none
    | some (bw3, e2) => some (bw3, e1 + e2)

/-- State of a `FloatNumericAttributeWidget`: base state plus the spin
box's and the slider's displayed values. -/
structure FloatWidget where
  w : WidgetState
  spinBox : ℚ
  slider : ℚ
deriving Repr, DecidableEq

/-- The slider-to-canonical conversion of `_sliderUpdated` (line 800):
`val / float(K_FLOAT_WIDGET_FACTOR)`. -/
def sliderToCanonical (v : ℚ) : ℚ := v / K_FLOAT_WIDGET_FACTOR

/-- The canonical-to-slider conversion of `_silentSliderUpdate`
(line 807): `val * float(K_FLOAT_WIDGET_FACTOR)`. -/
def canonicalToSlider (v : ℚ) : ℚ := v * K_FLOAT_WIDGET_FACTOR

/-- `FloatNumericAttributeWidget._sliderUpdated`: adopt the converted
canonical value, silently mirror it into the spin box (listener
detached, so no handler re-entry), then `_widgetUpdated` =
`_onSetAttr()` plus one emit. -/
def floatSliderUpdated (st : Store) (val : ℚ) (fw : FloatWidget) :
    Option (FloatWidget × Effects) :=
  let v := sliderToCanonical val
  let fw1 : FloatWidget :=
    { fw with w := { fw.w with value := MValue.rat v }, spinBox := v }
  match onSetAttr st false fw1.w with
  | Option.none => Option.none
  | some (w2, e) => some ({ fw1 with w := w2 }, e + oneEmit)

/-- A user drag of the slider to raw position `raw`: Qt moves the
slider, then invokes the connected `_sliderUpdated` handler with the
new raw value. -/
def userSliderMove (st : Store) (raw : ℚ) (fw : FloatWidget) :
    Option (FloatWidget × Effects) :=
  floatSliderUpdated st raw { fw with slider := raw }

/-! Concrete fixtures used by the closed theorems and witnesses below. -/

/-- A store holding one integer plug `n.a` with value 5. -/
def stInt5 : Store := ⟨[("n.a", "long", MValue.int 5)]⟩

/-- A store holding one integer plug `n.a` with the falsy value 0. -/
def stInt0 : Store := ⟨[("n.a", "long", MValue.int 0)]⟩

/-- A store holding one string plug `n.a` with value `"x"`. -/
def stStr : Store := ⟨[("n.a", "string", MValue.str "x")]⟩

/-- A store holding one float plug `n.a` with value 1. -/
def stFloat : Store := ⟨[("n.a", "double", MValue.rat 1)]⟩

/-- A disconnected integer widget on `n.a` with cached value 3. -/
def wDisc3 : WidgetState :=
  { node := "n", attrName := "a", plugString := "n.a",
    attributeType := "long", validAttrTypes := ["long"],
    isConnected := false, value := MValue.int 3,
    attributeDefaults := [("value", MValue.int 0)],
    deferredUpdateRequest := [], nodeCallbacks := [],
    sceneAttributeData := [] }

/-- A connected integer widget on `n.a` holding one subscription token
and cached value 7. -/
def wConn7 : WidgetState :=
  { wDisc3 with
    isConnected := true, value := MValue.int 7, nodeCallbacks := [0] }

/-- A connected widget holding one token and one pending marker. -/
def wConnPending : WidgetState :=
  { wConn7 with deferredUpdateRequest := [true] }

/-- A connected widget whose `_sceneAttributeData` is nonempty but has
no `overridePlug` entry (the obstructed-redirect state, reachable by
`pushInData` on a connected widget). -/
def wConnObstructed : WidgetState :=
  { wConn7 with sceneAttributeData := [("foo", MValue.int 1)] }

/-- A disconnected string widget whose cached value happens to equal the
`GARBAGE_TEST` sentinel string. -/
def wStrSentinel : WidgetState :=
  { node := "n", attrName := "a", plugString := "n.a",
    attributeType := "string", validAttrTypes := ["string"],
    isConnected := false, value := MValue.str GARBAGE_TEST,
    attributeDefaults := [("value", MValue.str "")],
    deferredUpdateRequest := [], nodeCallbacks := [],
    sceneAttributeData := [] }

/-- A fresh disconnected string widget of the same shape, cached value
empty. -/
def wStrFresh : WidgetState :=
  { wStrSentinel with value := MValue.str "" }

/-- An enum widget whose cached value has moved to index 2 while the
combo box still displays index 0. -/
def ewStale : EnumWidget :=
  { w := { node := "n", attrName := "a", plugString := "n.a",
           attributeType := "enum", validAttrTypes := ["enum"],
           isConnected := true, value := MValue.int 2,
           attributeDefaults := [("value", MValue.int 0)],
           deferredUpdateRequest := [], nodeCallbacks := [0],
           sceneAttributeData := [] },
    comboIndex := 0, enumValues := ["A", "B", "C"] }

/-- A disconnected boolean widget, value `False`, box unchecked. -/
def bwFalse : BoolWidget :=
  { w := { node := "n", attrName := "a", plugString := "n.a",
           attributeType := "bool", validAttrTypes := ["bool"],
           isConnected := false, value := MValue.bool false,
           attributeDefaults := [("value", MValue.bool false)],
           deferredUpdateRequest := [], nodeCallbacks := [],
           sceneAttributeData := [] },
    checkBox := false }

/-- A connected float widget on `n.a`, displays at 0. -/
def fwConn : FloatWidget :=
  { w := { node := "n", attrName := "a", plugString := "n.a",
           attributeType := "double", validAttrTypes := ["double"],
           isConnected := true, value := MValue.rat 0,
           attributeDefaults := [("value", MValue.rat 0)],
           deferredUpdateRequest := [], nodeCallbacks := [0],
           sceneAttributeData := [] },
    spinBox := 0, slider := 0 }

/-! Helper lemmas about the dict model and the notification queue. -/

/-- Looking up the key just set. -/
theorem dictGet_dictSet_self (d : List (String × MValue)) (k : String)
    (v : MValue) : dictGet (dictSet d k v) k = some v := by
  induction d with
  | nil => simp [dictGet, dictSet]
  | cons e rest ih =>
    by_cases h : e.1 = k <;> simp [dictGet, dictSet, h, ih]

/-- Setting one key leaves the others unchanged. -/
theorem dictGet_dictSet_other (d : List (String × MValue))
    (k k' : String) (v : MValue) (h : k' ≠ k) :
    dictGet (dictSet d k v) k' = dictGet d k' := by
  have h2 : ¬(k = k') := fun hk => h hk.symm
  induction d with
  | nil => simp [dictGet, dictSet, h2]
  | cons e rest ih =>
    by_cases he : e.1 = k
    · simp [dictGet, dictSet, he, h2]
    · simp [dictGet, dictSet, he, ih]

/-- `dictSet` never yields the empty dict. -/
theorem dictSet_ne_nil (d : List (String × MValue)) (k : String)
    (v : MValue) : dictSet d k v ≠ [] := by
  cases d with
  | nil => simp [dictSet]
  | cons e rest =>
    by_cases h : e.1 = k <;> simp [dictSet, h]

/-- Claim C1 (code bug): on an existing, kind-valid, unobstructed plug
whose store value is 5, `connectToNode(pull=True)` completes (the
connected flag is set) yet leaves the cached value equal to Python
`None`, not to the store's value: `_onGetAttr` early-returns because
`self._isConnected` is only set to `True` at the end of
`connectToNode`, so the pull adopts `None` instead of the external
value the spec and the method's own pull logic intend. -/
theorem connectToNode_pull_adopts_none :
    (connectToNode stInt5 true wDisc3).map
        (fun p => (p.1.isConnected, p.1.value))
      = some (true, MValue.pyNone)
    ∧ stInt5.getAttr "n.a" = some (MValue.int 5)
    ∧ MValue.pyNone ≠ MValue.int 5 := by
  refine ⟨by decide, by decide, by decide⟩

/-- Claim C2 (code bug): disconnecting a connected widget that holds
one subscription token (store value 5, cached value 7) does perform the
final read-refresh (cached value becomes 5) and clears the connected
flag, but the token list still holds the wrapper afterwards: the
`for _callback in self._nodeCallbacks: del _callback` loop at lines
450-451 only unbinds the loop variable, releasing nothing, although the
adjacent comment says it removes the registered callbacks. -/
theorem disConnect_keeps_subscription_tokens :
    (disConnectFromNode stInt5 wConn7).map
        (fun p => (p.1.isConnected, p.1.nodeCallbacks, p.1.value))
      = some (false, [0], MValue.int 5)
    ∧ ([0] : List Nat) ≠ [] := by
  refine ⟨by decide, by decide⟩

/-- Claim C3 counterexample: calling `connectToNode` on an
already-connected widget that holds one subscription token and one
pending refresh marker is NOT a no-op on the entire state — the token
list and the pending queue are reset to empty (lines 397-398 run before
the `if self._isConnected: return` guard), which in Python also drops
the last reference to the `MCallbackIdWrapper` and thereby unregisters
the live callback. -/
theorem connectToNode_reconnect_clears_lists_cex :
    (connectToNode stInt5 false wConnPending).map
        (fun p =>
          (p.1.nodeCallbacks, p.1.deferredUpdateRequest, p.1.isConnected))
      = some ([], [], true)
    ∧ wConnPending.nodeCallbacks = [0]
    ∧ wConnPending.deferredUpdateRequest = [true] := by
  refine ⟨by decide, by decide, by decide⟩

/-- Claim C3 as amended: reconnecting without disconnecting first
returns early with the connected flag, cached value and every other
field unchanged and registers no new subscription, EXCEPT that the
subscription-token list and the pending-refresh queue are first reset
to empty. -/
theorem connectToNode_reconnect_noop_except_lists (st : Store)
    (pull : Bool) (w : WidgetState) (h : w.isConnected = true) :
    connectToNode st pull w
      = some ({ w with nodeCallbacks := [], deferredUpdateRequest := [] },
              Effects.zero) := by
  simp [connectToNode, h]

/-- Witness for the amended claim C3 at a concrete connected widget. -/
theorem connectToNode_reconnect_noop_witness :
    connectToNode stInt5 true wConn7
      = some ({ wConn7 with
                nodeCallbacks := [], deferredUpdateRequest := [] },
              Effects.zero) :=
  connectToNode_reconnect_noop_except_lists stInt5 true wConn7 rfl

/-- Effect sequencing computed componentwise. -/
theorem Effects.add_eq (a b : Effects) :
    a + b = ⟨a.reads + b.reads, a.writes ++ b.writes, a.emits + b.emits,
             a.scheduled + b.scheduled⟩ := rfl

/-- Right identity of effect sequencing. -/
theorem Effects.add_zero (e : Effects) : e + Effects.zero = e := by
  cases e
  simp [Effects.add_eq, Effects.zero]

/-- Delivering dirty notifications to a widget whose queue is already
nonempty only appends markers: no further callback is scheduled and no
other effect occurs. -/
theorem iterDirty_append (n : Nat) : ∀ w : WidgetState,
    w.deferredUpdateRequest ≠ [] →
    iterDirty n w
      = ({ w with deferredUpdateRequest :=
             w.deferredUpdateRequest ++ List.replicate n true },
         Effects.zero) := by
  induction n with
  | zero =>
    intro w h
    have hq : w.deferredUpdateRequest ++ List.replicate 0 true
        = w.deferredUpdateRequest := by simp
    rw [show iterDirty 0 w = (w, Effects.zero) from rfl, hq]
  | succ n ih =>
    intro w h
    have hlen : ¬((w.deferredUpdateRequest ++ [true]).length = 1) := by
      simp only [List.length_append, List.length_singleton]
      intro hx
      exact h (List.length_eq_zero.mp (by omega))
    simp only [iterDirty, onDirtyPlug]
    rw [if_neg hlen]
    rw [ih _ (by simp)]
    simp [List.append_assoc, List.replicate_succ, Effects.add_eq,
          Effects.zero]

/-- Delivering `n + 1` consecutive dirty notifications to an idle
widget (empty queue) schedules exactly one deferred callback — on the
first notification — and leaves `n + 1` pending markers. -/
theorem iterDirty_from_empty (n : Nat) (w : WidgetState)
    (h : w.deferredUpdateRequest = []) :
    iterDirty (n + 1) w
      = ({ w with deferredUpdateRequest := List.replicate (n + 1) true },
         { Effects.zero with scheduled := 1 }) := by
  simp only [iterDirty, onDirtyPlug, h]
  rw [if_pos (by simp)]
  rw [iterDirty_append n _ (by simp)]
  simp [List.replicate_succ, Effects.add_zero]

/-- When the queued refresh callback fires on a connected widget whose
effective plug resolves and exists, it performs exactly one external
read and clears the queue (whether or not the read value is adopted). -/
theorem process_reads_once (st : Store) (w : WidgetState)
    (hq : ¬(w.deferredUpdateRequest = [])) (hc : w.isConnected = true)
    (p : String) (v : MValue) (hp : resolvePlug w = some p)
    (hv : st.getAttr p = some v) :
    ∃ w2 e2, processDeferredUpdateRequest st w = some (w2, e2)
      ∧ e2.reads = 1 ∧ w2.deferredUpdateRequest = [] := by
  by_cases hf : v.falsy = true
  · exact ⟨{ w with deferredUpdateRequest := [] },
      { Effects.zero with reads := 1 },
      by simp [processDeferredUpdateRequest, onGetAttr, hq, hc, hp, hv,
               hf],
      rfl, rfl⟩
  · exact ⟨{ w with value := v, deferredUpdateRequest := [] },
      { Effects.zero with reads := 1, emits := 1 },
      by simp [processDeferredUpdateRequest, onGetAttr, hq, hc, hp, hv,
               hf],
      rfl, rfl⟩

/-- Claim C4 counterexample: a connected widget can carry a nonempty
`_sceneAttributeData` without an `overridePlug` entry (e.g. after
`pushInData`); two dirty notifications then schedule the one deferred
callback as claimed, but when it fires `_onGetAttr` early-returns on
the obstructed redirect and performs ZERO external reads, not exactly
one. -/
theorem deferred_refresh_zero_reads_cex :
    (iterDirty 2 wConnObstructed).2.scheduled = 1
    ∧ (processDeferredUpdateRequest stInt5
          (iterDirty 2 wConnObstructed).1).map (fun p => p.2.reads)
        = some 0
    ∧ some (0 : Nat) ≠ some 1 := by
  refine ⟨by decide, by decide, by decide⟩

/-- Claim C4 as amended: for every N ≥ 1, delivering N consecutive
dirty notifications to a connected binding before the event loop idles
schedules exactly one deferred idle-time callback (on the first
notification only) and leaves N pending markers; when the callback
fires it performs exactly one external read PROVIDED the override
redirect is absent or resolvable and the effective plug exists (zero
reads on an obstructed redirect), and in all cases clears all pending
markers, returning to the idle state. -/
theorem deferred_refresh_coalesces (st : Store) (w : WidgetState)
    (N : Nat) (hN : 1 ≤ N) (hq : w.deferredUpdateRequest = [])
    (hc : w.isConnected = true) (p : String) (v : MValue)
    (hp : resolvePlug w = some p) (hv : st.getAttr p = some v) :
    (iterDirty N w).2.scheduled = 1
    ∧ (iterDirty N w).1.deferredUpdateRequest.length = N
    ∧ ∃ w2 e2,
        processDeferredUpdateRequest st (iterDirty N w).1 = some (w2, e2)
        ∧ e2.reads = 1 ∧ w2.deferredUpdateRequest = [] := by
  obtain ⟨m, rfl⟩ : ∃ m, N = m + 1 := ⟨N - 1, by omega⟩
  rw [iterDirty_from_empty m w hq]
  refine ⟨rfl, by simp, ?_⟩
  exact process_reads_once st _ (by simp [List.replicate_succ]) hc p v hp
    hv

/-- Witness for the amended claim C4: three notifications on a plain
connected widget, store value 5. -/
theorem deferred_refresh_coalesces_witness :
    (iterDirty 3 wConn7).2.scheduled = 1
    ∧ (iterDirty 3 wConn7).1.deferredUpdateRequest.length = 3
    ∧ ∃ w2 e2,
        processDeferredUpdateRequest stInt5 (iterDirty 3 wConn7).1
          = some (w2, e2)
        ∧ e2.reads = 1 ∧ w2.deferredUpdateRequest = [] :=
  deferred_refresh_coalesces stInt5 wConn7 3 (by decide) rfl rfl "n.a"
    (MValue.int 5) rfl rfl

/-- Claim C6 (code bug): the enumeration widget's display-refresh path
leaves the combo box untouched — line 647 reads
`self._silentUpdateSelf` without calling it — so after an external
update moves the cached value to index 2 while the combo box shows 0,
the refresh emits `valueChanged` but the displayed index stays 0,
never converging to the cached value; `enumSilentUpdateSelf` (the
method the code fails to invoke) is exactly what would reconcile it. -/
theorem enum_refresh_leaves_combo_stale :
    (∀ ew : EnumWidget, enumUpdateWidgetValues ew = (ew, oneEmit))
    ∧ (enumUpdateWidgetValues ewStale).1.comboIndex = 0
    ∧ (enumUpdateWidgetValues ewStale).1.w.value = MValue.int 2
    ∧ (0 : Int) ≠ 2
    ∧ enumSilentUpdateSelf ewStale = { ewStale with comboIndex := 2 } := by
  refine ⟨fun ew => rfl, by decide, by decide, by decide, by decide⟩

/-- Claim C5: construction raises — for any store, any supported-kind
set and any defaults — a `TypeError` (`MissingArgument`) when any of
node, attribute, or attributeType is absent or empty, and a `TypeError`
(`TypeMismatch`) when the arguments are present but the store's
reported kind for the locator differs from the declared kind; in both
cases the result is an error, so no binding is produced. -/
theorem baseInit_missing_and_mismatch (st : Store)
    (validTypes : List String) (node attrName attributeType : Option String)
    (valueKw : Option MValue) (attrInfo : List (String × MValue)) :
    ((optFalsy node || optFalsy attrName || optFalsy attributeType) = true →
      baseInit st validTypes node attrName attributeType valueKw attrInfo
        = Except.error InitError.missingArgument)
    ∧ (∀ k : String,
        (optFalsy node || optFalsy attrName || optFalsy attributeType)
          = false →
        st.getAttrType ((node.getD "") ++ "." ++ (attrName.getD ""))
          = some k →
        k ≠ attributeType.getD "" →
        baseInit st validTypes node attrName attributeType valueKw attrInfo
          = Except.error InitError.typeMismatch) := by
  constructor
  · intro h
    simp [baseInit, h]
  · intro k hargs hkind hne
    simp only [Bool.or_eq_false_iff] at hargs
    obtain ⟨⟨h1, h2⟩, h3⟩ := hargs
    simp [baseInit, h1, h2, h3, hkind, hne]

/-- Witness for claim C5: a missing node argument and a declared-kind
mismatch (declared `bool`, store reports `long`) both fail with the
corresponding error. -/
theorem baseInit_missing_and_mismatch_witness :
    baseInit stInt5 ["long"] Option.none (some "a") (some "long")
        Option.none []
      = Except.error InitError.missingArgument
    ∧ baseInit stInt5 ["bool"] (some "n") (some "a") (some "bool")
        Option.none []
      = Except.error InitError.typeMismatch := by
  constructor
  · exact (baseInit_missing_and_mismatch stInt5 ["long"] Option.none
      (some "a") (some "long") Option.none []).1 (by decide)
  · exact (baseInit_missing_and_mismatch stInt5 ["bool"] (some "n")
      (some "a") (some "bool") Option.none []).2 "long" (by decide)
      (by decide) (by decide)

/-- Claim C9: when a connected binding's read-through path obtains a
falsy value (zero, empty string, `False`) from the external store at
the resolved effective plug, it performs no update at all — the widget
state (cached value included) is returned unchanged, no display refresh
runs and no signal is emitted; only the one external read happened. -/
theorem onGetAttr_falsy_no_update (st : Store) (w : WidgetState)
    (p : String) (v : MValue) (hc : w.isConnected = true)
    (hp : resolvePlug w = some p) (hv : st.getAttr p = some v)
    (hf : v.falsy = true) :
    onGetAttr st w
      = some (w, MValue.pyNone, { Effects.zero with reads := 1 }) := by
  simp [onGetAttr, hc, hp, hv, hf]

/-- Witness for claim C9: connected widget with cached value 7 reading
the falsy store value 0 adopts nothing. -/
theorem onGetAttr_falsy_no_update_witness :
    onGetAttr stInt0 wConn7
      = some (wConn7, MValue.pyNone, { Effects.zero with reads := 1 }) :=
  onGetAttr_falsy_no_update stInt0 wConn7 "n.a" (MValue.int 0) rfl rfl
    rfl rfl

/-- Claim C10 counterexample: on a boolean widget, one assignment
through the public value setter that flips the checkbox state emits
`valueChanged` TWICE, not exactly once — `setChecked` runs with the
`stateChanged` listener still attached, so `_widgetUpdated` fires (one
emission) before the inherited `_updateWidgetValues` emission. -/
theorem bool_value_setter_double_emit_cex :
    (boolValueSetter stInt5 (MValue.bool true) bwFalse).map
        (fun p => p.2.emits) ≠ some 1
    ∧ (boolValueSetter stInt5 (MValue.bool true) bwFalse).map
        (fun p => p.2.emits) = some 2 := by
  refine ⟨by decide, by decide⟩

/-- `_onSetAttr` (not forced) never raises and emits nothing, whatever
the connection state, as long as a connected widget's own plug exists
in the store (the unguarded `cmds.getAttr(self._plugString)` at line
305 is the only raise site, and it is only reached when connected and
unobstructed); the widget state is returned unchanged. -/
theorem onSetAttr_emits_zero (st : Store) (w : WidgetState)
    (h : w.isConnected = true → ∃ u, st.getAttr w.plugString = some u) :
    ∃ e, onSetAttr st false w = some (w, e) ∧ e.emits = 0 := by
  by_cases hc : w.isConnected = true
  · obtain ⟨u, hu⟩ := h hc
    cases hp : resolvePlug w with
    | none => exact ⟨Effects.zero, by simp [onSetAttr, hc, hp], rfl⟩
    | some plug =>
      exact ⟨{ Effects.zero with reads := 1, writes := [(plug, w.value)] },
        by simp [onSetAttr, hc, hp, hu], rfl⟩
  · have hc2 : w.isConnected = false := by simpa using hc
    exact ⟨Effects.zero, by simp [onSetAttr, hc2], rfl⟩

/-- Claim C10 as amended: every assignment through the public value
setter whose write-through path does not raise — when connected, the
unguarded `cmds.getAttr(self._plugString)` of line 305 requires the
widget's own plug to exist in the store — emits `valueChanged` exactly
once on a base-shape widget, regardless of connection state and even
when the assigned value equals the current cached value; on the
boolean widget the same assignment emits once when the checkbox state
is unchanged and twice when it flips, because its display refresh
calls `setChecked` without detaching the change listener. -/
theorem value_setter_emit_counts :
    (∀ (st : Store) (v : MValue) (w : WidgetState),
      (w.isConnected = true → ∃ u, st.getAttr w.plugString = some u) →
      (valueSetter st v w).map (fun p => p.2.emits) = some 1)
    ∧ (∀ (st : Store) (v : MValue) (bw : BoolWidget),
        (bw.w.isConnected = true →
          ∃ u, st.getAttr bw.w.plugString = some u) →
        (boolValueSetter st v bw).map (fun p => p.2.emits)
          = some (if bw.checkBox = v.truthy then 1 else 2)) := by
  constructor
  · intro st v w h
    obtain ⟨e1, he1, hm1⟩ :=
      onSetAttr_emits_zero st { w with value := v } h
    simp [valueSetter, he1, hm1, oneEmit, Effects.add_eq, Effects.zero]
  · intro st v bw h
    obtain ⟨e1, he1, hm1⟩ :=
      onSetAttr_emits_zero st { bw.w with value := v } h
    by_cases hcb : bw.checkBox = v.truthy
    · simp [boolValueSetter, he1, boolUpdateWidgetValues, hcb, hm1,
            oneEmit, Effects.add_eq, Effects.zero]
    · obtain ⟨e2, he2, hm2⟩ :=
        onSetAttr_emits_zero st
          { bw.w with value := MValue.bool v.truthy } h
      simp [boolValueSetter, he1, boolUpdateWidgetValues, hcb,
            boolWidgetUpdated, he2, hm1, hm2, oneEmit, Effects.add_eq,
            Effects.zero]

/-- Witness for the amended claim C10: assigning 9 to the CONNECTED
widget (existing plug `n.a`) emits once, assigning 9 to a disconnected
widget emits once, and assigning `True` to the unchecked disconnected
boolean widget emits twice. -/
theorem value_setter_emit_counts_witness :
    (valueSetter stInt5 (MValue.int 9) wConn7).map (fun p => p.2.emits)
      = some 1
    ∧ (valueSetter stInt5 (MValue.int 9) wDisc3).map (fun p => p.2.emits)
      = some 1
    ∧ (boolValueSetter stInt5 (MValue.bool true) bwFalse).map
        (fun p => p.2.emits) = some 2 := by
  refine ⟨?_, ?_, ?_⟩
  · exact value_setter_emit_counts.1 stInt5 (MValue.int 9) wConn7
      (fun hc => ⟨MValue.int 5, rfl⟩)
  · exact value_setter_emit_counts.1 stInt5 (MValue.int 9) wDisc3
      (fun hc => absurd hc (by decide))
  · have h := value_setter_emit_counts.2 stInt5 (MValue.bool true)
      bwFalse (fun hc => absurd hc (by decide))
    simpa using h

/-- Claim C8: on a connected, unobstructed two-control float widget, a
user slider move to raw position 250 makes the canonical cached value
5/2 = 2.5, silently updates the spin box to 2.5 without re-triggering
any handler, and issues exactly one write-through with value 2.5 (and
one `valueChanged` emission); slider-to-canonical is division by
`K_FLOAT_WIDGET_FACTOR` = 100 and canonical-to-slider multiplication by
the same factor, exact inverses both ways; and for every raw position
the stored value is the canonical (divided) one while the slider keeps
the raw value — the factor is never folded into the stored value. -/
theorem slider_factor_conversion (st : Store) (fw : FloatWidget)
    (hc : fw.w.isConnected = true) (hs : fw.w.sceneAttributeData = [])
    (u : MValue) (hx : st.getAttr fw.w.plugString = some u) :
    (∃ e : Effects,
        userSliderMove st 250 fw
          = some ({ fw with
                    w := { fw.w with value := MValue.rat (5 / 2) },
                    spinBox := 5 / 2, slider := 250 }, e)
        ∧ e.writes = [(fw.w.plugString, MValue.rat (5 / 2))]
        ∧ e.emits = 1)
    ∧ (∀ v : ℚ, canonicalToSlider (sliderToCanonical v) = v
        ∧ sliderToCanonical (canonicalToSlider v) = v)
    ∧ (∀ raw : ℚ,
        (userSliderMove st raw fw).map (fun r => (r.1.w.value, r.1.slider))
          = some (MValue.rat (sliderToCanonical raw), raw)) := by
  have h52 : sliderToCanonical 250 = 5 / 2 := by
    norm_num [sliderToCanonical, K_FLOAT_WIDGET_FACTOR]
  refine ⟨⟨⟨1, [(fw.w.plugString, MValue.rat (5 / 2))], 1, 0⟩, ?_, rfl,
      rfl⟩, ?_, ?_⟩
  · simp [userSliderMove, floatSliderUpdated, onSetAttr, resolvePlug,
          hc, hs, hx, h52, Effects.add_eq, Effects.zero, oneEmit]
  · intro v
    constructor
    · show v / K_FLOAT_WIDGET_FACTOR * K_FLOAT_WIDGET_FACTOR = v
      rw [K_FLOAT_WIDGET_FACTOR]
      field_simp
    · show v * K_FLOAT_WIDGET_FACTOR / K_FLOAT_WIDGET_FACTOR = v
      rw [K_FLOAT_WIDGET_FACTOR]
      field_simp
  · intro raw
    simp [userSliderMove, floatSliderUpdated, onSetAttr, resolvePlug,
          hc, hs, hx]

/-- Witness for claim C8: the concrete connected float widget on the
store plug `n.a`, slider dragged to 250. -/
theorem slider_factor_conversion_witness :
    (userSliderMove stFloat 250 fwConn).map
        (fun r => (r.1.w.value, r.1.slider))
      = some (MValue.rat (sliderToCanonical 250), 250) :=
  (slider_factor_conversion stFloat fwConn rfl rfl (MValue.rat 1)
    rfl).2.2 250

/-- A stolen bundle always records the cached value under `value`. -/
theorem steal_get_value (w : WidgetState) :
    dictGet (stealMyData w) "value" = some w.value := by
  simp only [stealMyData, baseProperties, stealProps]
  rw [dictGet_dictSet_self]
  rfl

/-- Stealing never creates or destroys the `overridePlug` entry: the
bundle's entry equals the widget's own. -/
theorem steal_get_override (w : WidgetState) :
    dictGet (stealMyData w) K_OVR_PLUG_OVERRIDE_DATA_KEYS
      = dictGet w.sceneAttributeData K_OVR_PLUG_OVERRIDE_DATA_KEYS := by
  simp only [stealMyData, baseProperties, stealProps,
             K_OVR_PLUG_OVERRIDE_DATA_KEYS]
  rw [dictGet_dictSet_other _ _ _ _ (by decide),
      dictGet_dictSet_other _ _ _ _ (by decide),
      dictGet_dictSet_other _ _ _ _ (by decide),
      dictGet_dictSet_other _ _ _ _ (by decide),
      dictGet_dictSet_other _ _ _ _ (by decide),
      dictGet_dictSet_other _ _ _ _ (by decide)]
  by_cases h : w.sceneAttributeData = []
  · simp [h, dictGet]
  · simp [h]

/-- A stolen bundle is never the empty dict. -/
theorem steal_ne_nil (w : WidgetState) : stealMyData w ≠ [] := by
  simp only [stealMyData, baseProperties, stealProps]
  exact dictSet_ne_nil _ _ _

/-- Claim C7 counterexample: a string widget whose value happens to
equal the `GARBAGE_TEST` sentinel string breaks the round-trip law —
`pushInData` finds `data.get('value', GARBAGE_TEST) == GARBAGE_TEST`
and skips the property, so the fresh widget keeps its own value instead
of reproducing the stolen one. -/
theorem steal_push_sentinel_cex :
    (pushInData stStr (stealMyData wStrSentinel) wStrFresh).map
        (fun p => p.1.value) = some (MValue.str "")
    ∧ (pushInData stStr (stealMyData wStrSentinel) wStrFresh).map
        (fun p => p.1.value) ≠ some wStrSentinel.value
    ∧ wStrSentinel.value = MValue.str GARBAGE_TEST := by
  refine ⟨by decide, by decide, by decide⟩

/-- Claim C7 as amended: for every base-shape widget `w` and fresh
disconnected widget `f` of the same shape, `pushInData (stealMyData w)`
reproduces `w`'s externally visible value and override-redirect entry
on `f` — the excluded identity/connection properties (node, attribute,
attributeType, isConnected, plugString) keep `f`'s own values — EXCEPT
when `w`'s value equals the sentinel string `GARBAGE_TEST`, which push
skips; and a property whose key is absent from a pushed bundle (tested
against the sentinel, not against falsiness) is left unchanged. -/
theorem steal_push_roundtrip (st : Store) (w f : WidgetState)
    (hf : f.isConnected = false)
    (hw : w.value ≠ MValue.str GARBAGE_TEST) :
    (∃ e : Effects,
        pushInData st (stealMyData w) f
          = some ({ f with
                    sceneAttributeData := stealMyData w,
                    value := w.value }, e))
    ∧ dictGet (stealMyData w) K_OVR_PLUG_OVERRIDE_DATA_KEYS
        = dictGet w.sceneAttributeData K_OVR_PLUG_OVERRIDE_DATA_KEYS
    ∧ (∀ data : List (String × MValue), ¬(data = []) →
        dictGet data "value" = Option.none →
        pushInData st data f
          = some ({ f with sceneAttributeData := data }, Effects.zero)) := by
  have m1 : "node" ∈ PUSH_SKIP_PROPERTIES := by decide
  have m2 : "attribute" ∈ PUSH_SKIP_PROPERTIES := by decide
  have m3 : "attributeType" ∈ PUSH_SKIP_PROPERTIES := by decide
  have m4 : "isConnected" ∈ PUSH_SKIP_PROPERTIES := by decide
  have m5 : "plugString" ∈ PUSH_SKIP_PROPERTIES := by decide
  have m6 : ¬("value" ∈ PUSH_SKIP_PROPERTIES) := by decide
  refine ⟨⟨⟨0, [], 1, 0⟩, ?_⟩, steal_get_override w, ?_⟩
  · simp [pushInData, steal_ne_nil w, pushProps, baseProperties, m1, m2,
          m3, m4, m5, m6, setPropValue, dictGetD, steal_get_value, hw,
          valueSetter, onSetAttr, hf, Effects.add_eq, Effects.zero,
          oneEmit]
  · intro data hne hval
    simp [pushInData, hne, pushProps, baseProperties, m1, m2, m3, m4,
          m5, m6, dictGetD, hval]

/-- Witness for the amended claim C7: stealing from the connected
widget (value 7, no override) and pushing into the fresh disconnected
widget reproduces value 7. -/
theorem steal_push_roundtrip_witness :
    ∃ e : Effects,
      pushInData stInt5 (stealMyData wConn7) wDisc3
        = some ({ wDisc3 with
                  sceneAttributeData := stealMyData wConn7,
                  value := wConn7.value }, e) :=
  (steal_push_roundtrip stInt5 wConn7 wDisc3 rfl (by decide)).1

end AttrWidgets
